import Mathlib

/-!
Verification of the HowlX Atmos telemetry node (`code.py`, with the earlier
revision preserved as `part_000`).  The Python functions are shallowly
embedded: pure numeric helpers become functions over `ℚ` (or `ℝ` where the
source calls transcendental functions), the retry wrapper becomes a function
that also returns its action trace, and the main run's effect order is
modelled as a trace-producing pipeline.
-/

namespace HowlX

/-! ### Calibration offsets (`calibrated_flag`, code.py lines 113-118) -/

/-- The offset record loaded from `/bme_offsets.json`: `{temp, hum, press}`. -/
structure Offsets where
  temp : ℚ
  hum : ℚ
  press : ℚ
deriving DecidableEq

/-- Python `calibrated_flag(off)` from code.py: 1 when any of the three
offsets has absolute value exceeding 0.01, else 0. -/
def calibrated_flag (off : Offsets) : ℕ :=
  if |off.temp| > 0.01 ∨ |off.hum| > 0.01 ∨ |off.press| > 0.01 then 1 else 0

/-! ### Gas / IAQ interpretation (`interpret_gas_resistance`, code.py 349-379) -/

/-- Python `interpret_gas_resistance(gas_ohms)` from code.py: `(None, None)`
for a missing or non-positive input, otherwise the 5-level step index and
label. -/
def interpret_gas_resistance (gas_ohms : Option ℚ) : Option ℕ × Option String :=
  match gas_ohms with
  | none => (none, none)
  | some g =>
    if g ≤ 0 then (none, none)
    else if g ≥ 15000 then (some 5, some "very clean")
    else if g ≥ 8000 then (some 4, some "clean")
    else if g ≥ 3000 then (some 3, some "light VOCs")
    else if g ≥ 1000 then (some 2, some "moderate VOCs")
    else (some 1, some "high VOCs")

/-! ### Charge-state inference (`infer_state`, code.py 581-602) -/

/-- Python `infer_state(usb_present_flag, v_now, p_now, p_prev, v_prev)`
from code.py.  `usb_present_flag` is `some true` / `some false` / `none`
(Python `True` / `False` / `None`); previous-cycle values are optional. -/
def infer_state (usb_present_flag : Option Bool) (v_now p_now : ℚ)
    (p_prev v_prev : Option ℚ) : String :=
  let near_full_v : ℚ := 4.18
  let near_full_p : ℚ := 99.0
  let rising_pct : Bool :=
    match p_prev with
    | some pp => decide (p_now - pp > 0.10)
    | none => false
  let rising_v : Bool :=
    match v_prev with
    | some vp => decide (v_now - vp > 0.008)
    | none => false
  match usb_present_flag with
  | some true =>
    if v_now ≥ near_full_v ∨ p_now ≥ near_full_p then "charged"
    else if rising_pct || rising_v then "charging"
    else "plugged"
  | some false => "discharging"
  | none =>
    if v_now ≥ near_full_v ∨ p_now ≥ near_full_p then "charged"
    else if rising_pct || rising_v then "charging"
    else "discharging"

/-! ### Fuel-gauge read (code.py 542-569) -/

/-- The gauge samples available to one run: the first dual sample and the
dual sample taken after a `quick_start` pulse (if one is issued). -/
structure GaugeEnv where
  v1 : ℚ
  p1 : ℚ
  v2 : ℚ
  p2 : ℚ
  v1q : ℚ
  p1q : ℚ
  v2q : ℚ
  p2q : ℚ
deriving DecidableEq

/-- Result of the battery read: averaged voltage, clamped percent, and how
many `quick_start` recalibration pulses were issued. -/
structure BatteryOut where
  vbat : ℚ
  bpct : ℚ
  quickStarts : ℕ
deriving DecidableEq

/-- The fuel-gauge read sequence of code.py lines 542-569: average two
samples; if the averaged percent is above 101.5 or below −0.5, issue one
`quick_start` and re-average from the post-pulse samples; finally clamp the
percent with `max(0.0, min(100.0, bpct))`. -/
def read_battery (g : GaugeEnv) : BatteryOut :=
  let vbat := (g.v1 + g.v2) / 2
  let bpct := (g.p1 + g.p2) / 2
  if bpct > 101.5 ∨ bpct < -0.5 then
    let vbat2 := (g.v1q + g.v2q) / 2
    let bpct2 := (g.p1q + g.p2q) / 2
    { vbat := vbat2, bpct := max 0 (min 100 bpct2), quickStarts := 1 }
  else
    { vbat := vbat, bpct := max 0 (min 100 bpct), quickStarts := 0 }

/-! ### Psychrometric helpers (code.py 325-346 and part_000 47-66)

These call `math.exp` / `math.log`, so they are embedded over `ℝ` with
`Real.exp` / `Real.log`.  A Python `ValueError` (logarithm of a
non-positive number) or `ZeroDivisionError` is modelled as `none`, checked
in the evaluation order of the source expression. -/

/-- Python `humidity_ratio(temp_c, rh, pressure_hpa)` from code.py 340-343:
`es = 6.112 * exp(17.67*T/(T+243.5))`, `e = RH/100 * es`,
`w = 0.62198 * e / (P − e)`.  Note: no clamp on `e`. -/
noncomputable def humidity_ratio (temp_c rh pressure_hpa : ℝ) : ℝ :=
  let es := 6.112 * Real.exp ((17.67 * temp_c) / (temp_c + 243.5))
  let e := (rh / 100) * es
  0.62198 * e / (pressure_hpa - e)

/-- Python `humidity_ratio(t, rh, p_hpa)` from part_000 lines 60-63: same
formula but with `e = min(RH/100 * es, p_hpa − 0.1)`. -/
noncomputable def humidity_ratio_v0 (t rh p_hpa : ℝ) : ℝ :=
  let es := 6.112 * Real.exp (17.67 * t / (t + 243.5))
  let e := min ((rh / 100) * es) (p_hpa - 0.1)
  0.62198 * e / (p_hpa - e)

/-- Python `dewpoint_c(temp_c, rh)` from code.py lines 325-328 (Magnus
approximation, a = 17.62, b = 243.12).  The source computes
`gamma = (a*temp_c)/(b+temp_c) + log(rh/100)` and returns
`(b*gamma)/(a-gamma)`; a division by zero or a non-positive logarithm
argument raises, modelled as `none`. -/
noncomputable def dewpoint_c (temp_c rh : ℝ) : Option ℝ :=
  if temp_c + 243.12 = 0 then none
  else if rh / 100 ≤ 0 then none
  else
    let gamma := (17.62 * temp_c) / (243.12 + temp_c) + Real.log (rh / 100)
    if 17.62 - gamma = 0 then none
    else some ((243.12 * gamma) / (17.62 - gamma))

/-- Python `dewpoint_c(t, rh)` from part_000 lines 47-51: identical to the main
program's version except that `rh` is first clamped by
`rh = max(0.01, min(100.0, rh))`. -/
noncomputable def dewpoint_c_v0 (t rh : ℝ) : Option ℝ :=
  let rh2 := max 0.01 (min 100 rh)
  if t + 243.12 = 0 then none
  else if rh2 / 100 ≤ 0 then none
  else
    let g := (17.62 * t) / (243.12 + t) + Real.log (rh2 / 100)
    if 17.62 - g = 0 then none
    else some ((243.12 * g) / (17.62 - g))

/-! ### Resilient executor (`with_retry`, code.py 66-76)

The wrapped operation is modelled as `fn : ℕ → Option α`: the outcome of
attempt number `a` (`some v` = the call returns `v`, `none` = it raises).
Besides the Python return value (`Except.ok` = normal return,
`Except.error` = the `RuntimeError` raised after exhaustion) we record the
trace of watchdog feeds and operation invocations. -/

/-- One observable action of `with_retry`: a watchdog feed (`feed_wdt()`)
or the invocation of the wrapped operation on a given attempt number. -/
inductive RAction where
  | feed : RAction
  | invoke : ℕ → RAction
deriving DecidableEq

/-- The retry loop body over the list of remaining attempt numbers.
Each iteration feeds the watchdog, then invokes the operation; a success
returns immediately, a failure moves to the next attempt (the backoff sleep
has no observable effect beyond time and is not recorded).  Exhaustion
produces the Python `RuntimeError(f"{label} failed after {tries} tries")`. -/
def withRetryAux (fn : ℕ → Option α) (label : String) (tries : ℕ) :
    List ℕ → Except String α × List RAction
  | [] => (Except.error (label ++ " failed after " ++ toString tries ++ " tries"), [])
  | a :: rest =>
    match fn a with
    | some v => (Except.ok v, [RAction.feed, RAction.invoke a])
    | none =>
      ((withRetryAux fn label tries rest).1,
        RAction.feed :: RAction.invoke a :: (withRetryAux fn label tries rest).2)

/-- Python `with_retry(fn, tries, base_delay, label)` from code.py: attempt
numbers run 1, 2, …, `tries` as in `range(1, tries + 1)`. -/
def with_retry (fn : ℕ → Option α) (tries : ℕ) (label : String) :
    Except String α × List RAction :=
  withRetryAux fn label tries (List.range' 1 tries)

/-- Number of operation invocations in a retry trace. -/
def countInvokes : List RAction → ℕ
  | [] => 0
  | RAction.invoke _ :: rest => countInvokes rest + 1
  | RAction.feed :: rest => countInvokes rest

/-- Holds (as `true`) when every operation invocation in the trace is
immediately preceded by a watchdog feed. -/
def feedsBeforeInvokes : List RAction → Bool
  | [] => true
  | RAction.feed :: RAction.invoke _ :: rest => feedsBeforeInvokes rest
  | RAction.feed :: rest => feedsBeforeInvokes rest
  | RAction.invoke _ :: _ => false

/-! ### The main run's effect order (code.py 571-913)

After the battery read and charge inference, the run (the big `try:` block)
proceeds: persist `(bpct, vbat)` to `alarm.sleep_memory` (lines 607-612);
connect Wi-Fi under `with_retry` (line 619, unguarded — a raise reaches the
top-level handler); if `AIO_ENABLE`, post the batch under `with_retry`
(line 886, unguarded); if `INFLUX_ENABLE`, post to Influx under `with_retry`
wrapped in `try/except` (lines 891-895, failure only logged); persist
`(bpct, vbat)` again (lines 900-905).  The top-level handler (lines
907-913) soft-reloads, so nothing after the raising statement runs. -/

/-- An observable effect of the main run that the temporal claims speak
about. -/
inductive Event where
  | trendWrite : ℚ → ℚ → Event
  | aioPost : Event
  | influxPost : Event
  | softReload : Event
deriving DecidableEq

/-- The per-run inputs that determine the effect order: the two feature
flags, the per-attempt outcomes of the three retried operations, and the
battery values being persisted. -/
structure RunCfg where
  aioEnabled : Bool
  influxEnabled : Bool
  wifiOp : ℕ → Option ℕ
  aioOp : ℕ → Option ℕ
  influxOp : ℕ → Option ℕ
  bpct : ℚ
  vbat : ℚ

/-- The effect trace of one run from the first sleep-memory write onward,
following code.py's control flow.  The Influx branch emits its dispatch
attempt unconditionally when enabled because its `with_retry` call is
wrapped in `try/except` — its own exhaustion is only logged; the Adafruit
IO `with_retry` call is not wrapped, so its exhaustion aborts the run at
the top-level handler before any later effect. -/
def runTelemetry (cfg : RunCfg) : List Event :=
  Event.trendWrite cfg.bpct cfg.vbat ::
    (match (with_retry cfg.wifiOp 4 "Wi-Fi connect").1 with
     | Except.error _ => [Event.softReload]
     | Except.ok _ =>
       if cfg.aioEnabled then
         match (with_retry cfg.aioOp 4 "Adafruit IO POST").1 with
         | Except.error _ => [Event.aioPost, Event.softReload]
         | Except.ok _ =>
           Event.aioPost ::
             ((if cfg.influxEnabled then [Event.influxPost] else []) ++
               [Event.trendWrite cfg.bpct cfg.vbat])
       else
         (if cfg.influxEnabled then [Event.influxPost] else []) ++
           [Event.trendWrite cfg.bpct cfg.vbat])

/-- A run with both sinks enabled in which every Adafruit IO POST attempt
fails (and everything else would succeed). -/
def cfgAioDown : RunCfg :=
  { aioEnabled := true
    influxEnabled := true
    wifiOp := fun _ => some 1
    aioOp := fun _ => none
    influxOp := fun _ => some 204
    bpct := 50
    vbat := 7/2 }

/-- A fully successful run with both sinks enabled. -/
def cfgAllOk : RunCfg :=
  { aioEnabled := true
    influxEnabled := true
    wifiOp := fun _ => some 1
    aioOp := fun _ => some 200
    influxOp := fun _ => some 204
    bpct := 50
    vbat := 7/2 }

/-! ## Theorems -/

/-- C1: the claim asserts that for every USB input (true, false, unknown),
voltage ≥ 4.18 V or percent ≥ 99.0 yields "charged" regardless of the USB
signal.  This is false on the code: with `usb_present_flag = False`,
`infer_state` returns "discharging" immediately, even at 4.20 V. -/
theorem C1_charged_regardless_of_usb_counterexample :
    (4.18 : ℚ) ≤ 4.20 ∧
    infer_state (some false) 4.20 80 none none = "discharging" ∧
    infer_state (some false) 4.20 80 none none ≠ "charged" :=
  ⟨by norm_num, rfl, by simp [infer_state]⟩

/-- C1 (amended): when the USB signal is true or unknown, voltage ≥ 4.18 V
or percent ≥ 99.0 yields "charged"; when the USB signal is confirmed false,
the result is "discharging" regardless of voltage and percent. -/
theorem C1_charged_amended :
    (∀ (usb : Option Bool) (v p : ℚ) (pp pv : Option ℚ),
        usb ≠ some false → (v ≥ 4.18 ∨ p ≥ 99.0) →
        infer_state usb v p pp pv = "charged") ∧
    (∀ (v p : ℚ) (pp pv : Option ℚ),
        infer_state (some false) v p pp pv = "discharging") := by
  constructor
  · intro usb v p pp pv husb hfull
    rcases usb with _ | b
    · simp only [infer_state]
      rw [if_pos hfull]
    · cases b
      · exact absurd rfl husb
      · simp only [infer_state]
        rw [if_pos hfull]
  · intro v p pp pv
    simp only [infer_state]

/-- C1 witness: the amended statement applied at the spec's own scenario
`(usb=true, v=4.20, p=80)` and at the USB-unknown and USB-false variants. -/
theorem C1_charged_amended_witness :
    infer_state (some true) 4.20 80 none none = "charged" ∧
    infer_state none 4.20 80 none none = "charged" ∧
    infer_state (some false) 4.20 80 none none = "discharging" :=
  ⟨C1_charged_amended.1 (some true) 4.20 80 none none (by simp) (Or.inl (by norm_num)),
   C1_charged_amended.1 none 4.20 80 none none (by simp) (Or.inl (by norm_num)),
   C1_charged_amended.2 4.20 80 none none⟩

/-- Invocation count of the retry loop is bounded by the number of remaining
attempt numbers. -/
theorem countInvokes_withRetryAux (fn : ℕ → Option ℕ) (label : String) (tries : ℕ)
    (l : List ℕ) : countInvokes (withRetryAux fn label tries l).2 ≤ l.length := by
  induction l with
  | nil => simp [withRetryAux, countInvokes]
  | cons a rest ih =>
    cases h : fn a
    · simp only [withRetryAux, h, countInvokes, List.length_cons]
      omega
    · simp [withRetryAux, h, countInvokes]

/-- Every invocation in a retry trace is immediately preceded by a watchdog
feed. -/
theorem feeds_withRetryAux (fn : ℕ → Option ℕ) (label : String) (tries : ℕ)
    (l : List ℕ) : feedsBeforeInvokes (withRetryAux fn label tries l).2 = true := by
  induction l with
  | nil => rfl
  | cons a rest ih =>
    cases h : fn a
    · simpa [withRetryAux, h, feedsBeforeInvokes] using ih
    · simp [withRetryAux, h, feedsBeforeInvokes]

/-- C5: with the default `tries = 4`, an operation failing on attempts 1-3
and succeeding on attempt 4 makes `with_retry` return the success value
without raising; an operation failing on all attempts makes it raise the
labelled `RuntimeError` naming the operation; the operation is invoked at
most 4 times; and the watchdog is fed before every attempt. -/
theorem C5_with_retry_behavior (v : ℕ) (fn gn : ℕ → Option ℕ) (label : String)
    (h1 : fn 1 = none) (h2 : fn 2 = none) (h3 : fn 3 = none) (h4 : fn 4 = some v)
    (hg : ∀ a, gn a = none) :
    (with_retry fn 4 label).1 = Except.ok v ∧
    (with_retry gn 4 label).1
      = Except.error (label ++ " failed after " ++ toString 4 ++ " tries") ∧
    (∀ hn : ℕ → Option ℕ, countInvokes (with_retry hn 4 label).2 ≤ 4) ∧
    (∀ hn : ℕ → Option ℕ, feedsBeforeInvokes (with_retry hn 4 label).2 = true) := by
  have hr : List.range' 1 4 = [1, 2, 3, 4] := rfl
  refine ⟨?_, ?_, fun hn => ?_, fun hn => feeds_withRetryAux hn label 4 _⟩
  · simp [with_retry, hr, withRetryAux, h1, h2, h3, h4]
  · simp [with_retry, hr, withRetryAux, hg]
  · simpa using countInvokes_withRetryAux hn label 4 (List.range' 1 4)

/-- C5 witness: a concrete operation succeeding only on attempt 4 returns
its value, and a concrete always-failing operation raises the labelled
failure. -/
theorem C5_with_retry_behavior_witness :
    (with_retry (fun a => if a = 4 then some 7 else none) 4 "Adafruit IO POST").1
      = Except.ok 7 ∧
    (with_retry (fun _ => (none : Option ℕ)) 4 "Adafruit IO POST").1
      = Except.error ("Adafruit IO POST" ++ " failed after " ++ toString 4 ++ " tries") := by
  have h := C5_with_retry_behavior 7 (fun a => if a = 4 then some 7 else none)
    (fun _ => none) "Adafruit IO POST" rfl rfl rfl rfl (fun a => rfl)
  exact ⟨h.1, h.2.1⟩

/-- C6: the reported battery percent always lies in [0, 100] (raw 103.2
yields 100 and raw −2 yields 0), and the gauge quick-start recalibration is
issued at most once per run, exactly when the averaged percent is below
−0.5 or above 101.5. -/
theorem C6_battery_clamp_quickstart :
    (∀ g : GaugeEnv,
      0 ≤ (read_battery g).bpct ∧ (read_battery g).bpct ≤ 100 ∧
      (read_battery g).quickStarts ≤ 1 ∧
      ((read_battery g).quickStarts = 1 ↔
        ((g.p1 + g.p2) / 2 > 101.5 ∨ (g.p1 + g.p2) / 2 < -0.5))) ∧
    (read_battery ⟨4.2, 103.2, 4.2, 103.2, 4.2, 103.2, 4.2, 103.2⟩).bpct = 100 ∧
    (read_battery ⟨3.7, -2, 3.7, -2, 3.7, -2, 3.7, -2⟩).bpct = 0 := by
  refine ⟨fun g => ?_, by norm_num [read_battery], by norm_num [read_battery]⟩
  simp only [read_battery]
  split_ifs with h
  · exact ⟨le_max_left _ _, max_le (by norm_num) (min_le_left _ _), le_refl 1, by simp [h]⟩
  · exact ⟨le_max_left _ _, max_le (by norm_num) (min_le_left _ _), by norm_num, by simp [h]⟩

/-- C7: the air-quality interpretation is the 5-level step function over
gas resistance with thresholds 15000, 8000, 3000 and 1000 Ω, returning no
index for non-positive input; in particular 15000 ↦ 5, 14999 ↦ 4,
1000 ↦ 2, 999 ↦ 1, and 0 or negative ↦ none. -/
theorem C7_gas_step_function :
    interpret_gas_resistance (some 15000) = (some 5, some "very clean") ∧
    interpret_gas_resistance (some 14999) = (some 4, some "clean") ∧
    interpret_gas_resistance (some 1000) = (some 2, some "moderate VOCs") ∧
    interpret_gas_resistance (some 999) = (some 1, some "high VOCs") ∧
    interpret_gas_resistance (some 0) = (none, none) ∧
    (∀ g : ℚ, g < 0 → interpret_gas_resistance (some g) = (none, none)) ∧
    interpret_gas_resistance none = (none, none) ∧
    (∀ g : ℚ, 15000 ≤ g → (interpret_gas_resistance (some g)).1 = some 5) ∧
    (∀ g : ℚ, 8000 ≤ g → g < 15000 → (interpret_gas_resistance (some g)).1 = some 4) ∧
    (∀ g : ℚ, 3000 ≤ g → g < 8000 → (interpret_gas_resistance (some g)).1 = some 3) ∧
    (∀ g : ℚ, 1000 ≤ g → g < 3000 → (interpret_gas_resistance (some g)).1 = some 2) ∧
    (∀ g : ℚ, 0 < g → g < 1000 → (interpret_gas_resistance (some g)).1 = some 1) := by
  refine ⟨by norm_num [interpret_gas_resistance], by norm_num [interpret_gas_resistance],
    by norm_num [interpret_gas_resistance], by norm_num [interpret_gas_resistance],
    by norm_num [interpret_gas_resistance], ?_, rfl, ?_, ?_, ?_, ?_, ?_⟩ <;>
    intro g <;> intros <;> simp only [interpret_gas_resistance] <;>
    split_ifs <;> first | rfl | (exfalso; linarith)

/-- C7 witness: the step-function characterisation applied at one interior
point of each band and at a negative resistance. -/
theorem C7_gas_step_function_witness :
    (interpret_gas_resistance (some 20000)).1 = some 5 ∧
    (interpret_gas_resistance (some 9000)).1 = some 4 ∧
    (interpret_gas_resistance (some 5000)).1 = some 3 ∧
    (interpret_gas_resistance (some 2000)).1 = some 2 ∧
    (interpret_gas_resistance (some 500)).1 = some 1 ∧
    interpret_gas_resistance (some (-5)) = (none, none) := by
  have h := C7_gas_step_function
  exact ⟨h.2.2.2.2.2.2.2.1 20000 (by norm_num),
    h.2.2.2.2.2.2.2.2.1 9000 (by norm_num) (by norm_num),
    h.2.2.2.2.2.2.2.2.2.1 5000 (by norm_num) (by norm_num),
    h.2.2.2.2.2.2.2.2.2.2.1 2000 (by norm_num) (by norm_num),
    h.2.2.2.2.2.2.2.2.2.2.2 500 (by norm_num) (by norm_num),
    h.2.2.2.2.2.1 (-5) (by norm_num)⟩

/-- C8: `calibrated_flag` is 1 exactly when one of the three offsets has
absolute value exceeding 0.01, and 0 otherwise; in particular
{temp 0.005, hum 0, press 0} ↦ 0 and {temp 0.02, hum 0, press 0} ↦ 1. -/
theorem C8_calibrated_flag_iff :
    (∀ o : Offsets,
      (calibrated_flag o = 1 ↔ (|o.temp| > 0.01 ∨ |o.hum| > 0.01 ∨ |o.press| > 0.01)) ∧
      (calibrated_flag o = 0 ↔ ¬(|o.temp| > 0.01 ∨ |o.hum| > 0.01 ∨ |o.press| > 0.01))) ∧
    calibrated_flag ⟨0.005, 0, 0⟩ = 0 ∧ calibrated_flag ⟨0.02, 0, 0⟩ = 1 := by
  refine ⟨fun o => ?_, by norm_num [calibrated_flag, abs_of_nonneg],
    by norm_num [calibrated_flag, abs_of_nonneg]⟩
  unfold calibrated_flag
  split_ifs with h <;> simp [h]

/-- C9: with both previous-cycle values unknown, `infer_state` can never
return "charging"; the result is one of "charged", "plugged",
"discharging". -/
theorem C9_no_charging_without_prev :
    ∀ (usb : Option Bool) (v p : ℚ),
      infer_state usb v p none none ≠ "charging" ∧
      (infer_state usb v p none none = "charged" ∨
       infer_state usb v p none none = "plugged" ∨
       infer_state usb v p none none = "discharging") := by
  intro usb v p
  rcases usb with _ | b
  · simp only [infer_state]
    split_ifs <;> simp_all
  · cases b
    · simp only [infer_state]
      exact ⟨by decide, by simp⟩
    · simp only [infer_state]
      split_ifs <;> simp_all

/-- C2: the claim asserts that exhaustion of the Adafruit IO delivery does
not prevent the Influx delivery attempt or the end-of-run trend
persistence.  This is false on the code: the Adafruit IO `with_retry` call
is not guarded, so its exhaustion aborts the run — in the run `cfgAioDown`
(both sinks enabled, every AIO attempt failing) no Influx dispatch occurs
and the only trend write is the early one. -/
theorem C2_sink_isolation_counterexample :
    runTelemetry cfgAioDown =
      [Event.trendWrite 50 (7/2), Event.aioPost, Event.softReload] ∧
    Event.influxPost ∉ runTelemetry cfgAioDown ∧
    (runTelemetry cfgAioDown).count (Event.trendWrite 50 (7/2)) = 1 := by
  have h : runTelemetry cfgAioDown =
      [Event.trendWrite 50 (7/2), Event.aioPost, Event.softReload] := rfl
  refine ⟨h, ?_, ?_⟩
  · rw [h]; simp
  · rw [h]; simp [List.count_cons]

/-- C2 (amended): failure isolation holds only for the Influx sink — when
Wi-Fi and the Adafruit IO delivery succeed, the run ends with the trend
write no matter how the Influx attempts fare (its `with_retry` call is
wrapped in `try/except`); but exhaustion of the Adafruit IO delivery aborts
the run, preventing both the Influx attempt and the end-of-run trend
persistence. -/
theorem C2_sink_isolation_amended (cfg : RunCfg) (u : ℕ)
    (hw : (with_retry cfg.wifiOp 4 "Wi-Fi connect").1 = Except.ok u) :
    (∀ va, cfg.aioEnabled = true →
        (with_retry cfg.aioOp 4 "Adafruit IO POST").1 = Except.ok va →
        runTelemetry cfg =
          [Event.trendWrite cfg.bpct cfg.vbat, Event.aioPost] ++
            (if cfg.influxEnabled then [Event.influxPost] else []) ++
            [Event.trendWrite cfg.bpct cfg.vbat]) ∧
    (∀ e, cfg.aioEnabled = true →
        (with_retry cfg.aioOp 4 "Adafruit IO POST").1 = Except.error e →
        runTelemetry cfg =
          [Event.trendWrite cfg.bpct cfg.vbat, Event.aioPost, Event.softReload]) := by
  constructor
  · intro va hA hok
    simp [runTelemetry, hw, hA, hok]
  · intro e hA herr
    simp [runTelemetry, hw, hA, herr]

/-- C2 witness: the amended statement applied to the concrete
AIO-exhaustion run. -/
theorem C2_sink_isolation_amended_witness :
    runTelemetry cfgAioDown =
      [Event.trendWrite 50 (7/2), Event.aioPost, Event.softReload] :=
  (C2_sink_isolation_amended cfgAioDown 1 rfl).2 _ rfl rfl

/-- C3: the claim asserts the main program's `humidity_ratio` uses the
clamped vapour pressure `e = min(RH/100·es, P − 0.1)`.  This is false:
code.py computes `e = RH/100·es` with no clamp (only the earlier revision
clamps), and at T = 0 °C, RH = 100 %, P = 6 hPa the two versions differ
(the unclamped denominator is negative there). -/
theorem C3_humidity_clamp_counterexample :
    humidity_ratio 0 100 6 ≠ humidity_ratio_v0 0 100 6 := by
  have hexp : Real.exp (17.67 * (0:ℝ) / (0 + 243.5)) = 1 := by
    norm_num
  have h1 : humidity_ratio 0 100 6 < 0 := by
    simp only [ humidity_ratio]
    rw [hexp]
    norm_num
  have h2 : 0 < humidity_ratio_v0 0 100 6 := by
    simp only [ humidity_ratio_v0]
    rw [hexp]
    have hmin : min ((100:ℝ)/100 * (6.112 * 1)) (6 - 0.1) = 6 - 0.1 :=
      min_eq_right (by norm_num)
    rw [hmin]
    norm_num
  exact ne_of_lt (h1.trans h2)

/-- C3 (amended): the main program's `humidity_ratio` computes
`w = 0.62198·e/(P − e)` with the unclamped `e = RH/100·es`; only the
earlier revision's version uses `e = min(RH/100·es, P − 0.1)`, whose
min-clamp keeps the denominator at least 0.1; the two versions agree
exactly when `RH/100·es ≤ P − 0.1`. -/
theorem C3_humidity_clamp_amended :
    (∀ t rh p : ℝ, humidity_ratio t rh p =
        0.62198 * ((rh / 100) * (6.112 * Real.exp ((17.67 * t) / (t + 243.5)))) /
          (p - (rh / 100) * (6.112 * Real.exp ((17.67 * t) / (t + 243.5))))) ∧
    (∀ t rh p : ℝ, humidity_ratio_v0 t rh p =
        0.62198 * min ((rh / 100) * (6.112 * Real.exp (17.67 * t / (t + 243.5)))) (p - 0.1) /
          (p - min ((rh / 100) * (6.112 * Real.exp (17.67 * t / (t + 243.5)))) (p - 0.1))) ∧
    (∀ t rh p : ℝ,
        0.1 ≤ p - min ((rh / 100) * (6.112 * Real.exp (17.67 * t / (t + 243.5)))) (p - 0.1)) ∧
    (∀ t rh p : ℝ,
        (rh / 100) * (6.112 * Real.exp (17.67 * t / (t + 243.5))) ≤ p - 0.1 →
        humidity_ratio t rh p = humidity_ratio_v0 t rh p) := by
  refine ⟨fun t rh p => rfl, fun t rh p => rfl, fun t rh p => ?_, fun t rh p h => ?_⟩
  · have := min_le_right ((rh / 100) * (6.112 * Real.exp (17.67 * t / (t + 243.5)))) (p - 0.1)
    linarith
  · simp only [ humidity_ratio, humidity_ratio_v0]
    rw [min_eq_left h]

/-- C3 witness: at T = 0 °C, RH = 50 %, P = 1013.25 hPa the clamp is
inactive and the two versions agree, by the amended statement. -/
theorem C3_humidity_clamp_amended_witness :
    humidity_ratio 0 50 1013.25 = humidity_ratio_v0 0 50 1013.25 := by
  apply C3_humidity_clamp_amended.2.2.2
  norm_num

/-- C4: the claim asserts the trend state is written exactly once per run,
last, with no write before telemetry dispatch.  This is false on the code:
in a fully successful run (`cfgAllOk`) the sleep-memory region is written
twice, and the first write (code.py lines 607-612) precedes the Adafruit
IO dispatch. -/
theorem C4_trend_write_counterexample :
    (runTelemetry cfgAllOk).count (Event.trendWrite 50 (7/2)) = 2 ∧
    (runTelemetry cfgAllOk).head? = some (Event.trendWrite 50 (7/2)) ∧
    (runTelemetry cfgAllOk).get? 1 = some Event.aioPost := by
  have h : runTelemetry cfgAllOk =
      [Event.trendWrite 50 (7/2), Event.aioPost, Event.influxPost,
       Event.trendWrite 50 (7/2)] := rfl
  rw [h]
  exact ⟨by simp [List.count_cons], rfl, rfl⟩

/-- C4 (amended): every run writes the trend state first, before any
telemetry dispatch, with the current cycle's values; a run in which Wi-Fi
and the Adafruit IO delivery succeed writes it a second time as the last
action, after telemetry dispatch, with the same values (two writes total). -/
theorem C4_trend_write_amended (cfg : RunCfg) :
    (runTelemetry cfg).head? = some (Event.trendWrite cfg.bpct cfg.vbat) ∧
    (∀ u va, (with_retry cfg.wifiOp 4 "Wi-Fi connect").1 = Except.ok u →
        cfg.aioEnabled = true →
        (with_retry cfg.aioOp 4 "Adafruit IO POST").1 = Except.ok va →
        (runTelemetry cfg).getLast? = some (Event.trendWrite cfg.bpct cfg.vbat) ∧
        (runTelemetry cfg).count (Event.trendWrite cfg.bpct cfg.vbat) = 2) := by
  constructor
  · rfl
  · intro u va hw hA hok
    have h : runTelemetry cfg =
        [Event.trendWrite cfg.bpct cfg.vbat, Event.aioPost] ++
          (if cfg.influxEnabled then [Event.influxPost] else []) ++
          [Event.trendWrite cfg.bpct cfg.vbat] := by
      simp [runTelemetry, hw, hA, hok]
    rw [h]
    cases hI : cfg.influxEnabled <;> simp [List.count_cons, List.getLast?]

/-- C4 witness: the amended statement applied to the concrete fully
successful run. -/
theorem C4_trend_write_amended_witness :
    (runTelemetry cfgAllOk).getLast? = some (Event.trendWrite 50 (7/2)) ∧
    (runTelemetry cfgAllOk).count (Event.trendWrite 50 (7/2)) = 2 :=
  (C4_trend_write_amended cfgAllOk).2 1 200 rfl rfl rfl

/-- C10: the main program's `dewpoint_c` does not guard its humidity input —
for rh ≤ 0 the logarithm's domain is violated and the computation fails
(`none`) instead of returning a value; for rh ∈ (0, 100] and
t > −243.12 °C with the Magnus gamma distinct from a = 17.62 it returns a
defined result; the earlier revision clamps rh into [0.01, 100] first, so
the two versions disagree at rh ≤ 0 (shown at t = 0, rh = 0). -/
theorem C10_dewpoint_domain :
    (∀ t rh : ℝ, rh ≤ 0 → dewpoint_c t rh = none) ∧
    (∀ t rh : ℝ, 0 < rh → rh ≤ 100 → -243.12 < t →
        (17.62 * t) / (243.12 + t) + Real.log (rh / 100) ≠ 17.62 →
        ∃ y, dewpoint_c t rh = some y) ∧
    (dewpoint_c 0 0 = none ∧ (dewpoint_c_v0 0 0).isSome = true) := by
  refine ⟨fun t rh hrh => ?_, fun t rh h0 h100 ht hg => ?_, ?_, ?_⟩
  · simp only [dewpoint_c]
    have hq : rh / 100 ≤ 0 := by linarith
    split_ifs <;> rfl
  · simp only [dewpoint_c]
    have hne : t + 243.12 ≠ 0 := by intro h; linarith
    have hpos : ¬(rh / 100 ≤ 0) := by
      push_neg
      positivity
    have hg2 : ¬(17.62 - ((17.62 * t) / (243.12 + t) + Real.log (rh / 100)) = 0) := by
      intro h
      exact hg (by linarith)
    rw [if_neg hne, if_neg hpos, if_neg hg2]
    exact ⟨_, rfl⟩
  · simp only [dewpoint_c]
    norm_num
  · have hrh2 : max (0.01:ℝ) (min 100 0) = 0.01 := by
      rw [min_eq_right (by norm_num : (0:ℝ) ≤ 100)]
      exact max_eq_left (by norm_num)
    have hlog : Real.log ((0.01:ℝ) / 100) < 0 :=
      Real.log_neg (by norm_num) (by norm_num)
    simp only [dewpoint_c_v0, hrh2]
    have hg2 : ¬(17.62 - ((17.62 * (0:ℝ)) / (243.12 + 0) + Real.log ((0.01:ℝ) / 100)) = 0) := by
      intro h
      norm_num at h
      linarith
    rw [if_neg (by norm_num : ¬((0:ℝ) + 243.12 = 0)),
      if_neg (by norm_num [hlog.le] : ¬((0.01:ℝ) / 100 ≤ 0)), if_neg hg2]
    rfl

/-- C10 witness: the unguarded version fails at rh = −5 and succeeds at
t = 20 °C, rh = 50 %, by the domain statement. -/
theorem C10_dewpoint_domain_witness :
    dewpoint_c 20 (-5) = none ∧ (∃ y, dewpoint_c 20 50 = some y) := by
  refine ⟨C10_dewpoint_domain.1 20 (-5) (by norm_num),
    C10_dewpoint_domain.2.1 20 50 (by norm_num) (by norm_num) (by norm_num) ?_⟩
  have hlog : Real.log ((50:ℝ) / 100) < 0 := Real.log_neg (by norm_num) (by norm_num)
  have hdiv : (17.62 * (20:ℝ)) / (243.12 + 20) ≤ 2 := by norm_num
  intro h
  linarith

end HowlX
